import Mathlib

/-!
Verification of the podcast-processor orchestration core.

The definitions below are a shallow embedding of the repository's source:
the Step Functions state machine built in the `StepFunctionsStack` (the
`TranscribeAudio` task, the `WaitForTranscription` wait state, the
`CheckTranscriptionStatus` task, the `IsTranscriptionComplete` choice state
and the terminal states), the inline `s3EventBridgeFunction` trigger lambda
of `NotificationsStack`/`EventsStack`/`TriggersStack`, and the three Python
stage handlers (`transcript-processor`, `summarizer`, `formatter`) whose
source is listed in `docs/detailed-design.md`.
-/

namespace PodcastProcessor

/-! ## Workflow engine: the `IsTranscriptionComplete` choice state

From `StepFunctionsStack`:
```
const isTranscriptionComplete = new sfn.Choice(this, 'IsTranscriptionComplete')
  .when(sfn.Condition.or(
    sfn.Condition.stringEquals('$.TranscriptionStatus.Payload.Status', 'COMPLETED'),
    sfn.Condition.stringEquals('$.TranscriptionStatus.Payload.Status', 'SUCCESS')
  ), processTranscript)
  .when(sfn.Condition.stringEquals('$.TranscriptionStatus.Payload.Status', 'FAILED'), transcriptionFailed)
  .otherwise(waitForTranscription);
```
-/

inductive PollDecision where
  | toProcessTranscript
  | toTranscriptionFailed
  | toWaitForTranscription
deriving DecidableEq

def isTranscriptionComplete (status : String) : PollDecision :=
  if status = "COMPLETED" ∨ status = "SUCCESS" then .toProcessTranscript
  else if status = "FAILED" then .toTranscriptionFailed
  else .toWaitForTranscription

/-! ## The wait/poll loop

The chain is `transcribeAudio.next(waitForTranscription)
.next(checkTranscriptionStatus).next(isTranscriptionComplete)`, and the
choice's `otherwise` branch re-enters `waitForTranscription`; so every poll
(`CheckTranscriptionStatus`) is preceded by one `WaitForTranscription` wait.
The loop is run against the finite list of statuses the successive polls
return. -/

inductive AwaitOutcome where
  | proceeded
  | transcriptionFailed
  | stillWaiting
deriving DecidableEq

structure LoopTrace where
  polls : Nat
  waits : Nat
  outcome : AwaitOutcome
deriving DecidableEq

def runAwaitLoop : List String → LoopTrace
  | [] => { polls := 0, waits := 0, outcome := .stillWaiting }
  | s :: rest =>
    match isTranscriptionComplete s with
    | .toProcessTranscript => { polls := 1, waits := 1, outcome := .proceeded }
    | .toTranscriptionFailed => { polls := 1, waits := 1, outcome := .transcriptionFailed }
    | .toWaitForTranscription =>
        let t := runAwaitLoop rest
        { polls := t.polls + 1, waits := t.waits + 1, outcome := t.outcome }

/-! ## The whole workflow from submission

`transcribeAudio.addCatch(transcriptionFailed)`: a failing Submit call is
caught and goes straight to the `TranscriptionFailed` fail state, never
reaching the wait/poll loop.  The Submit outcome of the external
`bedrockTranscribeFunction` call is an input of the model. -/

inductive WorkflowOutcome where
  | reachedProcessTranscript
  | transcriptionFailed
  | stillRunning
deriving DecidableEq

structure WorkflowTrace where
  polls : Nat
  outcome : WorkflowOutcome
deriving DecidableEq

def runWorkflow (submit : Except String String) (statuses : List String) : WorkflowTrace :=
  match submit with
  | .error _ => { polls := 0, outcome := .transcriptionFailed }
  | .ok _jobId =>
    let t := runAwaitLoop statuses
    { polls := t.polls,
      outcome :=
        match t.outcome with
        | .proceeded => .reachedProcessTranscript
        | .transcriptionFailed => .transcriptionFailed
        | .stillWaiting => .stillRunning }

/-! ## Execution timeout

From `StepFunctionsStack`:
```
this.stateMachine = new sfn.StateMachine(this, 'PodcastProcessingStateMachine', {
  definition,
  timeout: cdk.Duration.minutes(30),
  ...
});
const waitForTranscription = new sfn.Wait(this, 'WaitForTranscription', {
  time: sfn.WaitTime.duration(cdk.Duration.seconds(30))
});
```
AWS Step Functions semantics for the `timeout` property: an execution whose
wall-clock duration exceeds the configured timeout is terminated with the
terminal status `TIMED_OUT` (error `States.Timeout`), whatever state it is
currently in.  The timed run below threads the elapsed wall clock through
the wait/poll loop (each iteration spends the 30-second wait; the
instantaneous poll and choice are not charged). -/

def waitSeconds : Nat := 30

def stateMachineTimeoutSeconds : Nat := 30 * 60

inductive TimedOutcome where
  | proceeded
  | transcriptionFailed
  | timedOut
  | stillWaiting
deriving DecidableEq

def runAwaitLoopTimed (statuses : List String) (elapsed : Nat) : TimedOutcome :=
  if stateMachineTimeoutSeconds < elapsed + waitSeconds then .timedOut
  else
    match statuses with
    | [] => .stillWaiting
    | s :: rest =>
      match isTranscriptionComplete s with
      | .toProcessTranscript => .proceeded
      | .toTranscriptionFailed => .transcriptionFailed
      | .toWaitForTranscription => runAwaitLoopTimed rest (elapsed + waitSeconds)

/-! ## Trigger listener: the `s3EventBridgeFunction` inline lambda

From `NotificationsStack` / `EventsStack` / `TriggersStack` (the same inline
handler in all three): for each S3 record it reads `bucket` and `key` and
calls
```
stepfunctions.startExecution({ stateMachineArn, input }).promise()
```
with no `name` parameter and no prior lookup of existing executions.  AWS
`StartExecution` semantics: a call that does not supply an execution `name`
always creates a fresh execution (deduplication only happens for calls that
reuse the same name).  The Step Functions service state is the list of
executions of the one state machine. -/

structure StartInput where
  bucket : String
  key : String
deriving DecidableEq

inductive ExecStatus where
  | running
  | succeeded
  | failed
deriving DecidableEq

structure Execution where
  input : StartInput
  status : ExecStatus
deriving DecidableEq

structure SfnServiceState where
  executions : List Execution
deriving DecidableEq

def startExecution (st : SfnServiceState) (inp : StartInput) : SfnServiceState :=
  { executions := st.executions ++ [{ input := inp, status := .running }] }

structure S3Record where
  bucket : String
  key : String
deriving DecidableEq

def s3EventBridgeHandler (st : SfnServiceState) (records : List S3Record) : SfnServiceState :=
  records.foldl (fun s r => startExecution s { bucket := r.bucket, key := r.key }) st

def countExecutionsFor (st : SfnServiceState) (inp : StartInput) : Nat :=
  (st.executions.filter (fun e => e.input = inp)).length

/-! ## Stage handler: `transcript-processor` (docs/detailed-design.md)

```
for segment in transcript_data.get('segments', []):
    speaker = segment.get('speaker', 'Unknown')
    text = segment.get('text', '')
    full_transcript += f"{speaker}: {text}\n\n"
metadata = { 'originalFileName': original_file_name,
             'processingTimestamp': context.invoked_function_arn,
             'transcriptLength': len(full_transcript) }
return { 'transcript': full_transcript, 'metadata': metadata }
```
A raw transcript with no `segments` key yields the default `[]`, the same as
an explicit empty list.  The only raised errors are upstream (S3 get /
`json.loads`), modelled by the `invalidJson` input case. -/

structure Segment where
  speaker : Option String
  text : Option String
deriving DecidableEq

inductive RawTranscriptData where
  | invalidJson
  | valid (segments : List Segment)
deriving DecidableEq

structure TranscriptMetadata where
  originalFileName : String
  processingTimestamp : String
  transcriptLength : Nat
deriving DecidableEq

structure ProcessorOutput where
  transcript : String
  metadata : TranscriptMetadata
deriving DecidableEq

def transcriptProcessorHandler (data : RawTranscriptData)
    (originalFileName invokedFunctionArn : String) : Except String ProcessorOutput :=
  match data with
  | .invalidJson => .error "JSONDecodeError"
  | .valid segments =>
    let full_transcript := segments.foldl
      (fun acc seg => acc ++ seg.speaker.getD "Unknown" ++ ": " ++ seg.text.getD "" ++ "\n\n") ""
    .ok { transcript := full_transcript,
          metadata := { originalFileName := originalFileName,
                        processingTimestamp := invokedFunctionArn,
                        transcriptLength := full_transcript.length } }

/-! ## Stage handler: `summarizer` (docs/detailed-design.md)

The handler sends the transcript and the fixed system prompt to the model
and returns
```
summary = response_body["content"][0]["text"]
return { "summary": summary, "metadata": metadata }
```
with no inspection of the returned text; the `except` clause re-raises any
invocation error.  The external model's response is an input of the model:
`.error` for a raised invocation error, otherwise the list of content
blocks (indexing `[0]` into an empty list raises). -/

structure ModelResponse where
  content : List String
deriving DecidableEq

structure SummarizerOutput where
  summary : String
  metadata : List (String × String)
deriving DecidableEq

def summarizerHandler (_transcript : String) (metadata : List (String × String))
    (invokeResult : Except String ModelResponse) : Except String SummarizerOutput :=
  match invokeResult with
  | .error e => .error e
  | .ok resp =>
    match resp.content with
    | [] => .error "IndexError: list index out of range"
    | text :: _ => .ok { summary := text, metadata := metadata }

/-! ## Stage handler: `formatter` (docs/detailed-design.md)

The formatter parses Claude's response with `re.search`/`re.sub`/`re.findall`.
Each extractor below is a direct implementation of its Python pattern's
backtracking semantics (leftmost match; greedy `\s*` giving characters back
on demand; greedy optional label groups; lazy `.+?`/`.*?` bounded by a
`(?=\n\s*N\)|\Z)` lookahead), specialised to that concrete pattern. -/

/-- The Python `\s` class over ASCII: space, tab, newline, carriage return,
vertical tab, form feed. -/
def isWs (c : Char) : Bool :=
  c == ' ' || c == '\t' || c == '\n' || c == '\r' || c == '\x0b' || c == '\x0c'

/-- Python `str.strip()`. -/
def pstrip (l : List Char) : List Char :=
  ((l.dropWhile isWs).reverse.dropWhile isWs).reverse

/-- Consume a literal from the front of a string, if present. -/
def stripLit : List Char → List Char → Option (List Char)
  | [], s => some s
  | _, [] => none
  | l :: ls, c :: cs => if l == c then stripLit ls cs else none

/-- Match `([X]+)` at offset `p` of `t`, where `X` is the complement of
`bad`: the greedy nonempty capture, or none. -/
def capHere (bad : Char → Bool) (t : List Char) (p : Nat) : Option (List Char) :=
  match t.drop p with
  | [] => none
  | c :: rest => if bad c then none else some (c :: rest.takeWhile (fun x => !bad x))

/-- Backtracking for `\s*([X]+)`: the greedy `\s*` first consumes the whole
whitespace run (length given as the Nat argument) and then gives characters
back one at a time until the capture can start. -/
def findCapDown (bad : Char → Bool) (t : List Char) : Nat → Option (List Char)
  | 0 => capHere bad t 0
  | p + 1 =>
    match capHere bad t (p + 1) with
    | some r => some r
    | none => findCapDown bad t p

/-- The character class `[^\n]` of the title/film captures, negated. -/
def lineBad (c : Char) : Bool := c == '\n'

/-- Match `\s*([^\n]+)` at the front of `t`. -/
def capAfterWs (t : List Char) : Option (List Char) :=
  findCapDown lineBad t ((t.takeWhile isWs).length)

/-- Match `:?\s*([^\n]+)` at the front of `t` (the optional colon is tried
first; if its branch fails the colon itself is a valid capture start). -/
def colonWsCap (t : List Char) : Option (List Char) :=
  match t with
  | ':' :: t2 =>
    match capAfterWs t2 with
    | some r => some r
    | none => capHere lineBad t 0
  | _ => capAfterWs t

/-- Match `\s*(?:LABEL:?\s*)?([^\n]+)` at the front of `t`: the greedy
optional label group is tried first; since the label starts with a
non-whitespace letter it can only match right after the full whitespace
run, and when it matches but the capture after it fails, the group is
dropped and the capture starts on the label text itself. -/
def labeledCapture (label : List Char) (t : List Char) : Option (List Char) :=
  let m := (t.takeWhile isWs).length
  match stripLit label (t.drop m) with
  | some rest =>
    match colonWsCap rest with
    | some r => some r
    | none => capHere lineBad t m
  | none => findCapDown lineBad t m

/-- `re.search` for `d\)\s*(?:LABEL:?\s*)?([^\n]+)`: try every position
left to right. -/
def searchNum (d : Char) (label : List Char) : List Char → Option (List Char)
  | [] => none
  | c :: rest =>
    if c == d then
      match rest with
      | ')' :: t =>
        match labeledCapture label t with
        | some r => some r
        | none => searchNum d label rest
      | _ => searchNum d label rest
    else searchNum d label rest

/-- `extract_episode_name`: pattern
`1\)\s*(?:The name of the episode:?\s*)?([^\n]+)`, fallback
"Untitled Episode". -/
def extract_episode_name (summary : String) : String :=
  match searchNum '1' "The name of the episode".data summary.data with
  | some cap => String.mk (pstrip cap)
  | none => "Untitled Episode"

/-- `extract_film`: pattern
`2\)\s*(?:The film featured in the episode:?\s*)?([^\n]+)`, fallback
"Unknown Film". -/
def extract_film (summary : String) : String :=
  match searchNum '2' "The film featured in the episode".data summary.data with
  | some cap => String.mk (pstrip cap)
  | none => "Unknown Film"

/-- The lookahead `(?=\n\s*d\)|\Z)`: end of input, or a newline followed by
whitespace and the literal `d)`. -/
def lookNum (d : Char) (u : List Char) : Bool :=
  match u with
  | [] => true
  | '\n' :: v =>
    match v.dropWhile isWs with
    | c :: ')' :: _ => c == d
    | _ => false
  | _ => false

/-- Lazy `.+?(?=\n\s*d\)|\Z)` with `re.DOTALL`: the shortest nonempty
prefix after which the lookahead holds. -/
def lazyCapAfter (d : Char) : List Char → Option (List Char)
  | [] => none
  | c :: rest =>
    if lookNum d rest then some [c]
    else
      match lazyCapAfter d rest with
      | some r => some (c :: r)
      | none => none

def inLit : List Char := "In this episode Billy and Nick discuss".data

def sumLabel : List Char := "A short summary of the episode".data

/-- Match, right after a `3)`, the rest of the summary pattern
`\s*(?:A short summary of the episode:?\s*)?(In this episode Billy and
Nick discuss.+?)(?=\n\s*4\)|\Z)`. -/
def summaryAt (t : List Char) : Option (List Char) :=
  let afterWs := t.dropWhile isWs
  let tryLit := fun (u : List Char) =>
    match stripLit inLit u with
    | some rest => (lazyCapAfter '4' rest).map (fun r => inLit ++ r)
    | none => none
  match stripLit sumLabel afterWs with
  | some rest =>
    let rest2 := match rest with
                 | ':' :: r => r
                 | _ => rest
    tryLit (rest2.dropWhile isWs)
  | none => tryLit afterWs

/-- `re.search` for the summary pattern of `extract_episode_summary`. -/
def searchSummary : List Char → Option (List Char)
  | [] => none
  | c :: rest =>
    if c == '3' then
      match rest with
      | ')' :: t =>
        match summaryAt t with
        | some r => some r
        | none => searchSummary rest
      | _ => searchSummary rest
    else searchSummary rest

/-- `extract_episode_summary`: fallback "No summary available.". -/
def extract_episode_summary (summary : String) : String :=
  match searchSummary summary.data with
  | some cap => String.mk (pstrip cap)
  | none => "No summary available."

/-- Lazy `.+?LIT` (DOTALL): consume at least one character, then the
shortest continuation at which the literal matches; returns the remainder
after the literal. -/
def lazyUntilLit (lit : List Char) : List Char → Option (List Char)
  | [] => none
  | _ :: rest =>
    match stripLit lit rest with
    | some r => some r
    | none => lazyUntilLit lit rest

def cheatLead : List Char := "a single page".data

def cheatTail : List Char := "cheat sheet".data

/-- The optional label `(?:a single page.+?cheat sheet:?\s*)?` of the
cheat-sheet pattern: the remainder after the label when it matches. -/
def cheatLabelRest (u : List Char) : Option (List Char) :=
  match stripLit cheatLead u with
  | some r =>
    match lazyUntilLit cheatTail r with
    | some r2 =>
      let r3 := match r2 with
                | ':' :: x => x
                | _ => r2
      some (r3.dropWhile isWs)
    | none => none
  | none => none

/-- Lazy `(.*?)(?=\n\s*d\)|\Z)` with DOTALL: the shortest (possibly empty)
prefix after which the lookahead holds; it always exists because `\Z`
matches at the end. -/
def lazyCapStar (d : Char) : List Char → List Char
  | [] => []
  | c :: rest => if lookNum d (c :: rest) then [] else c :: lazyCapStar d rest

/-- Match, right after a `4)`, the rest of the cheat-sheet pattern
`\s*(?:a single page.+?cheat sheet:?\s*)?(.*?)(?=\n\s*5\)|\Z)`; it always
matches. -/
def cheatAt (t : List Char) : List Char :=
  let afterWs := t.dropWhile isWs
  let start := match cheatLabelRest afterWs with
               | some r => r
               | none => afterWs
  lazyCapStar '5' start

/-- `re.search` for the cheat-sheet pattern of `extract_cheat_sheet`. -/
def searchCheat : List Char → Option (List Char)
  | [] => none
  | c :: rest =>
    if c == '4' then
      match rest with
      | ')' :: t => some (cheatAt t)
      | _ => searchCheat rest
    else searchCheat rest

/-- `extract_cheat_sheet`: fallback "No cheat sheet available.". -/
def extract_cheat_sheet (summary : String) : String :=
  match searchCheat summary.data with
  | some cap => String.mk (pstrip cap)
  | none => "No cheat sheet available."

def termsLead : List Char := "5 search terms".data

/-- Match, right after a `5)`, the rest of the search-terms pattern
`\s*(?:5 search terms.+?:?\s*)?(.*?)(?=\Z)`.  Because the continuation
after the label's lazy `.+?` always matches, that `.+?` consumes exactly
one character; the final capture runs to the end of the input. -/
def termsAt (t : List Char) : List Char :=
  let afterWs := t.dropWhile isWs
  match stripLit termsLead afterWs with
  | some (_ :: r) =>
    let r2 := match r with
              | ':' :: x => x
              | _ => r
    r2.dropWhile isWs
  | some [] => afterWs
  | none => afterWs

/-- `re.search` for the search-terms pattern of `extract_search_terms`. -/
def searchTerms5 : List Char → Option (List Char)
  | [] => none
  | c :: rest =>
    if c == '5' then
      match rest with
      | ')' :: t => some (termsAt t)
      | _ => searchTerms5 rest
    else searchTerms5 rest

def isQuoteC (c : Char) : Bool := c == '"' || c == Char.ofNat 39

def isBulletC (c : Char) : Bool := c == '-' || c == '•' || c == '*'

/-- The character class `[^,\n]` of the bare-term capture, negated. -/
def termBad (c : Char) : Bool := c == ',' || c == '\n'

/-- The quoted branch `["\']([^"\']+)["\']` of the findall pattern, at the
front of `u`: the capture and the remainder after the match. -/
def quoteTerm (u : List Char) : Option (List Char × List Char) :=
  match u with
  | c :: rest =>
    if isQuoteC c then
      let cap := rest.takeWhile (fun x => !isQuoteC x)
      match rest.drop cap.length with
      | q :: r2 => if isQuoteC q && !cap.isEmpty then some (cap, r2) else none
      | [] => none
    else none
  | [] => none

/-- Like `findCapDown` but also returning the chosen offset, for computing
the remainder after the match. -/
def findTermCap (t : List Char) : Nat → Option (Nat × List Char)
  | 0 => (capHere termBad t 0).map (fun cp => (0, cp))
  | p + 1 =>
    match capHere termBad t (p + 1) with
    | some cp => some (p + 1, cp)
    | none => findTermCap t p

/-- Match `\s*([^,\n]+)(?:,|\n|$)` at the front of `t`: capture and
remainder after the consumed delimiter. -/
def wsCapTerm (t : List Char) : Option (List Char × List Char) :=
  match findTermCap t ((t.takeWhile isWs).length) with
  | none => none
  | some (p, cap) =>
    match t.drop (p + cap.length) with
    | ',' :: r => some (cap, r)
    | '\n' :: r => some (cap, r)
    | rest => some (cap, rest)

/-- The body `\s*[-•*]?\s*([^,\n]+)(?:,|\n|$)` of the bare-term branch:
the optional bullet is tried first; if the capture after it fails the
bullet character itself starts the capture. -/
def bodyTerm (v : List Char) : Option (List Char × List Char) :=
  let v1 := v.dropWhile isWs
  match v1 with
  | b :: r =>
    if isBulletC b then
      match wsCapTerm r with
      | some pr => some pr
      | none => wsCapTerm v1
    else wsCapTerm v
  | [] => wsCapTerm v

/-- The bare-term branch `(?:^|\n)\s*[-•*]?\s*([^,\n]+)(?:,|\n|$)` at the
front of `u`; `atStart` is true only at position 0 of the scanned text
(`^` without `re.MULTILINE`). -/
def lineTermAt (atStart : Bool) (u : List Char) : Option (List Char × List Char) :=
  if atStart then bodyTerm u
  else
    match u with
    | '\n' :: v => bodyTerm v
    | _ => none

/-- `re.findall` for the terms pattern: scan left to right, quoted branch
first, emitting non-overlapping matches; fuelled by the input length (each
step consumes at least one character). -/
def scanTermsF : Nat → Bool → List Char → List (List Char)
  | 0, _, _ => []
  | _ + 1, _, [] => []
  | n + 1, atStart, c :: rest =>
    match quoteTerm (c :: rest) with
    | some (cap, r) => cap :: scanTermsF n false r
    | none =>
      match lineTermAt atStart (c :: rest) with
      | some (cap, r) => cap :: scanTermsF n false r
      | none => scanTermsF n false rest

def findallTerms (s : List Char) : List (List Char) :=
  scanTermsF (s.length + 1) true s

/-- `extract_search_terms`: fallback `[]`; each found term is stripped and
empty results are dropped. -/
def extract_search_terms (summary : String) : List String :=
  match searchTerms5 summary.data with
  | none => []
  | some t =>
    ((findallTerms (pstrip t)).map (fun c => String.mk (pstrip c))).filter
      (fun x => !(x == ""))

/-- The character class `[a-zA-Z0-9_-]` kept by the slugifying
`re.sub(r'[^a-zA-Z0-9_-]', '_', episode_name)`. -/
def keepChar (c : Char) : Bool :=
  ('a' ≤ c && c ≤ 'z') || ('A' ≤ c && c ≤ 'Z') || ('0' ≤ c && c ≤ '9') ||
    c == '_' || c == '-'

/-- `safe_name = re.sub(r'[^a-zA-Z0-9_-]', '_', episode_name)`. -/
def safe_name (episode_name : String) : String :=
  String.mk (episode_name.data.map (fun c => if keepChar c then c else '_'))

/-- Modelled from the spec: the slugification the claim describes, which
replaces every non-alphanumeric character with an underscore (so also `-`),
for comparison with `safe_name` from the source. -/
def slugifySpecWords (title : String) : String :=
  String.mk (title.data.map (fun c => if c.isAlphanum then c else '_'))

def dictGet (d : List (String × String)) (k dflt : String) : String :=
  match d.find? (fun p => p.1 == k) with
  | some p => p.2
  | none => dflt

/-- `format_markdown`: the f-string template, with `datetime.now()` passed
in as the `timestamp` argument, plus the source line appended when the
metadata dict is nonempty. -/
def format_markdown (episode_name film episode_summary cheat_sheet : String)
    (search_terms : List String) (metadata : List (String × String))
    (timestamp : String) : String :=
  let search_terms_md := String.intercalate "\n" (search_terms.map (fun t => "- " ++ t))
  let markdown :=
    "# " ++ episode_name ++ "\n\n*Generated: " ++ timestamp ++
    "*\n\n## Featured Film\n" ++ film ++
    "\n\n## Episode Summary\n" ++ episode_summary ++
    "\n\n## Parenting Cheat Sheet\n" ++ cheat_sheet ++
    "\n\n## Search Terms\n" ++ search_terms_md ++ "\n"
  if metadata.isEmpty then markdown
  else markdown ++ "\n\n---\n*Source: " ++ dictGet metadata "originalFileName" "Unknown" ++ "*\n"

structure FormatterResult where
  status : String
  outputKey : String
  episodeName : String
  film : String
  markdown : String
deriving DecidableEq

/-- The formatter `handler`: extracts the five components, renders the
markdown (the `put_object` body, returned here in the `markdown` field) and
returns the success record. -/
def formatterHandler (summary : String) (metadata : List (String × String))
    (today : String) : FormatterResult :=
  let episode_name := extract_episode_name summary
  let film := extract_film summary
  let episode_summary := extract_episode_summary summary
  let cheat_sheet := extract_cheat_sheet summary
  let search_terms := extract_search_terms summary
  let markdown := format_markdown episode_name film episode_summary cheat_sheet
    search_terms metadata today
  { status := "success",
    outputKey := "summaries/" ++ safe_name episode_name ++ ".md",
    episodeName := episode_name,
    film := film,
    markdown := markdown }

end PodcastProcessor

namespace PodcastProcessor

/-- Claim C1 (counterexample): with an execution for
(podcast-input, uploads/episode1.mp3) already RUNNING, a second Start
request for the same (bucket, key) produces a second execution: the count
for that input goes from 1 to 2 instead of staying 1. -/
theorem C1_counterexample :
    countExecutionsFor
      { executions := [{ input := { bucket := "podcast-input", key := "uploads/episode1.mp3" },
                         status := .running }] }
      { bucket := "podcast-input", key := "uploads/episode1.mp3" } = 1 ∧
    countExecutionsFor
      (s3EventBridgeHandler
        { executions := [{ input := { bucket := "podcast-input", key := "uploads/episode1.mp3" },
                           status := .running }] }
        [{ bucket := "podcast-input", key := "uploads/episode1.mp3" }])
      { bucket := "podcast-input", key := "uploads/episode1.mp3" } = 2 := by
  decide

/-- Claim C1 (amended): Start is not idempotent: the trigger handler starts
a fresh execution for every record unconditionally, so a Start for a
(bucket, key) always increases the number of executions for that input by
one, whatever executions (RUNNING, SUCCEEDED or otherwise) already exist. -/
theorem C1_start_always_new_execution (st : SfnServiceState) (b k : String) :
    countExecutionsFor (s3EventBridgeHandler st [{ bucket := b, key := k }])
      { bucket := b, key := k } =
    countExecutionsFor st { bucket := b, key := k } + 1 := by
  simp [s3EventBridgeHandler, startExecution, countExecutionsFor, List.filter_append]

/-- Claim C2 (counterexample): on a validly parsed raw transcript with zero
segments the transcript-processor handler does not fail: it returns a
successful result whose transcript is the empty string (length 0); no
MalformedTranscriptError is raised (none exists in the code). -/
theorem C2_counterexample :
    transcriptProcessorHandler (.valid []) "unknown.mp3" "arn:lambda:ctx" =
      Except.ok { transcript := "",
                  metadata := { originalFileName := "unknown.mp3",
                                processingTimestamp := "arn:lambda:ctx",
                                transcriptLength := 0 } } := by
  rfl

/-- Claim C2 (amended): for every input whose raw transcript data contains
zero segments (including raw data with no recognizable `segments` field,
which defaults to the empty list), the TranscriptClean stage handler
succeeds with an empty transcript of recorded length 0 rather than
failing. -/
theorem C2_zero_segments_empty_success (name arn : String) :
    transcriptProcessorHandler (.valid []) name arn =
      Except.ok { transcript := "",
                  metadata := { originalFileName := name,
                                processingTimestamp := arn,
                                transcriptLength := 0 } } := by
  rfl

/-- Claim C4 (counterexample): a model response whose single content block
is the empty string — empty model output, containing none of the five
expected labeled sections — is returned by the Summarize handler as a
successful result with an empty summary; no GenerationError is raised. -/
theorem C4_counterexample :
    summarizerHandler "some transcript" [] (.ok { content := [""] }) =
      Except.ok { summary := "", metadata := [] } := by
  rfl

/-- Claim C4 (amended): the Summarize handler performs no validation of the
model output: whatever text the first content block holds — empty or
lacking any of the five labeled sections — is returned unchanged as a
successful result; the handler fails only when the model invocation itself
raises or returns no content blocks at all. -/
theorem C4_no_output_validation (transcript text : String)
    (metadata : List (String × String)) (rest : List String) :
    summarizerHandler transcript metadata (.ok { content := text :: rest }) =
      Except.ok { summary := text, metadata := metadata } := by
  rfl

/-- Claim C3 (counterexample): on model output consisting only of sections
1) and 2) — the summary section missing entirely — the Format handler does
not fail: it returns a success record and produces a full output document in
which the summary body is the substituted default "No summary available.". -/
theorem C3_counterexample :
    formatterHandler "1) My Episode\n2) My Film" [] "2026-10-11" =
      { status := "success",
        outputKey := "summaries/My_Episode.md",
        episodeName := "My Episode",
        film := "My Film",
        markdown := "# My Episode\n\n*Generated: 2026-10-11*\n\n## Featured Film\nMy Film\n\n## Episode Summary\nNo summary available.\n\n## Parenting Cheat Sheet\nNo cheat sheet available.\n\n## Search Terms\n\n" } := by
  set_option maxRecDepth 8192 in decide

/-- Claim C3 (amended): for every model output from which no summary body
can be extracted (the summary pattern finds no match), the Format stage
still succeeds: it substitutes the default text "No summary available." as
the summary body and renders the output document with it; no format error
exists. -/
theorem C3_missing_summary_still_succeeds (summary : String)
    (metadata : List (String × String)) (today : String)
    (h : searchSummary summary.data = none) :
    (formatterHandler summary metadata today).status = "success" ∧
    extract_episode_summary summary = "No summary available." ∧
    (formatterHandler summary metadata today).markdown =
      format_markdown (extract_episode_name summary) (extract_film summary)
        "No summary available." (extract_cheat_sheet summary)
        (extract_search_terms summary) metadata today := by
  have e : extract_episode_summary summary = "No summary available." := by
    simp [extract_episode_summary, h]
  exact ⟨rfl, e, by simp [formatterHandler, e]⟩

/-- Witness for C3: the summary-free model output "plain text" satisfies
the hypothesis and the Format stage succeeds on it with the default summary
body. -/
theorem C3_witness :
    searchSummary "plain text".data = none ∧
    ((formatterHandler "plain text" [] "2026-10-11").status = "success" ∧
     extract_episode_summary "plain text" = "No summary available." ∧
     (formatterHandler "plain text" [] "2026-10-11").markdown =
       format_markdown (extract_episode_name "plain text") (extract_film "plain text")
         "No summary available." (extract_cheat_sheet "plain text")
         (extract_search_terms "plain text") [] "2026-10-11") :=
  ⟨by decide, C3_missing_summary_still_succeeds "plain text" [] "2026-10-11" (by decide)⟩

/-- Claim C8 (counterexample): the hyphen is a non-alphanumeric character,
yet the Format stage's slugification does not replace it with `_` (its
class `[^a-zA-Z0-9_-]` keeps `-`): for the episode title "A-B" the handler
produces the output key "summaries/A-B.md", where the claimed
every-non-alphanumeric-to-underscore rule would produce "A_B" and hence
"summaries/A_B.md". -/
theorem C8_counterexample :
    Char.isAlphanum '-' = false ∧
    safe_name "A-B" = "A-B" ∧
    slugifySpecWords "A-B" = "A_B" ∧
    (formatterHandler "1) A-B" [] "2026-10-11").episodeName = "A-B" ∧
    (formatterHandler "1) A-B" [] "2026-10-11").outputKey = "summaries/A-B.md" := by
  set_option maxRecDepth 8192 in decide

/-- Claim C8 (amended): the output-key slugification used by Format
replaces every character that is not an ASCII alphanumeric, underscore or
hyphen with `_`, preserving case (underscores and hyphens pass through
unchanged); in particular the episode title "Episode 5: Raising Kids!"
yields the output key component "Episode_5__Raising_Kids_", giving the
output key "summaries/Episode_5__Raising_Kids_.md". -/
theorem C8_slugify :
    safe_name "Episode 5: Raising Kids!" = "Episode_5__Raising_Kids_" ∧
    (formatterHandler "1) Episode 5: Raising Kids!" [] "2026-10-11").outputKey =
      "summaries/Episode_5__Raising_Kids_.md" ∧
    ∀ (title : String),
      safe_name title =
        String.mk (title.data.map
          (fun c => if c.isAlphanum || c == '_' || c == '-' then c else '_')) := by
  refine ⟨by decide, by set_option maxRecDepth 8192 in decide, fun title => ?_⟩
  have hc : ∀ (c : Char), keepChar c = (c.isAlphanum || c == '_' || c == '-') := by
    intro c
    simp [keepChar, Char.isAlphanum, Char.isAlpha, Char.isDigit, Char.isUpper,
      Char.isLower, Char.le_def, Bool.or_comm, Bool.or_assoc, Bool.or_left_comm]
  simp only [safe_name, hc]

/-- Claim C5: for the poll-status sequence [SUBMITTED, RUNNING, RUNNING,
COMPLETED] the AwaitTranscription loop issues exactly 4 polls, each preceded
by one wait interval, and proceeds to the transcript-processing stage only
after the poll that returned COMPLETED (after only the first three statuses
it is still waiting). -/
theorem C5_await_loop_four_polls :
    runAwaitLoop ["SUBMITTED", "RUNNING", "RUNNING", "COMPLETED"] =
      { polls := 4, waits := 4, outcome := .proceeded } ∧
    runAwaitLoop ["SUBMITTED", "RUNNING", "RUNNING"] =
      { polls := 3, waits := 3, outcome := .stillWaiting } ∧
    waitSeconds = 30 := by
  decide

/-- Claim C6 (counterexample): the status string "SUCCESS" is a poll status
other than COMPLETED and FAILED, yet the choice state does not re-enter the
wait-then-poll loop on it: it proceeds to the transcript-processing stage. -/
theorem C6_counterexample :
    "SUCCESS" ≠ "COMPLETED" ∧ "SUCCESS" ≠ "FAILED" ∧
    isTranscriptionComplete "SUCCESS" ≠ .toWaitForTranscription := by
  decide

/-- Claim C6 (amended): for every poll status other than COMPLETED, SUCCESS
and FAILED — including SUBMITTED, RUNNING, and any unknown or new provider
status string — the engine re-enters the wait-then-poll loop. -/
theorem C6_otherwise_reloops (s : String)
    (h1 : s ≠ "COMPLETED") (h2 : s ≠ "SUCCESS") (h3 : s ≠ "FAILED") :
    isTranscriptionComplete s = .toWaitForTranscription := by
  unfold isTranscriptionComplete
  rw [if_neg (by tauto), if_neg h3]

/-- Witness for C6: the unknown provider status "IN_QUEUE" re-enters the
loop. -/
theorem C6_witness :
    isTranscriptionComplete "IN_QUEUE" = .toWaitForTranscription :=
  C6_otherwise_reloops "IN_QUEUE" (by decide) (by decide) (by decide)

/-- Claim C7: the state machine carries an overall wall-clock timeout of
30 minutes (1800 seconds); any execution whose elapsed time exceeds it is
forced into the TimedOut terminal outcome whatever statuses are still
pending, and an execution that keeps polling RUNNING forever reaches
TimedOut rather than looping indefinitely. -/
theorem C7_timeout :
    stateMachineTimeoutSeconds = 1800 ∧
    (∀ (statuses : List String) (elapsed : Nat),
      stateMachineTimeoutSeconds < elapsed →
      runAwaitLoopTimed statuses elapsed = .timedOut) ∧
    runAwaitLoopTimed (List.replicate 60 "RUNNING") 0 = .timedOut := by
  refine ⟨rfl, ?_, by decide⟩
  intro statuses elapsed h
  unfold runAwaitLoopTimed
  rw [if_pos (by omega)]

/-- Witness for C7: a concrete execution 1801 seconds in, with a RUNNING
status still pending, is forced to the TimedOut outcome. -/
theorem C7_witness :
    stateMachineTimeoutSeconds < 1801 ∧
    runAwaitLoopTimed ["RUNNING"] 1801 = .timedOut :=
  ⟨by decide, C7_timeout.2.1 ["RUNNING"] 1801 (by decide)⟩

/-- Claim C9: when the transcription Submit call fails, the caught error
leads the workflow directly to the TranscriptionFailed terminal state with
zero polls issued, whatever statuses later polls would have returned. -/
theorem C9_submit_failure_zero_polls (err : String) (statuses : List String) :
    runWorkflow (.error err) statuses = { polls := 0, outcome := .transcriptionFailed } := by
  rfl

/-- Claim C10: the completion decision accepts both 'COMPLETED' and
'SUCCESS': a poll status of 'SUCCESS' is treated identically to 'COMPLETED',
advancing the workflow to the transcript-processing stage. -/
theorem C10_success_accepted :
    isTranscriptionComplete "SUCCESS" = .toProcessTranscript ∧
    isTranscriptionComplete "SUCCESS" = isTranscriptionComplete "COMPLETED" := by
  decide

end PodcastProcessor
